import Mathlib

/-!
Verification of the sandboxed filesystem MCP server (mcp_server.py): the
path resolver safe_join_and_check (lines 121-132) and the three tool
operations tool_read_file, tool_list_directory and tool_write_file, embedded
shallowly over a pure model of the filesystem.  Paths are strings; the
Python path functions (lstrip of separators, posixpath.normpath, join,
abspath, commonprefix, dirname, basename) are reproduced on character
lists with structural recursion.
-/

/-- Characters removed by the lstrip on line 124 of the source,
relative_path_str.lstrip of the two separator characters. -/
def isLeadingSep (c : Char) : Bool := c == '/' || c == '\\'

/-- Python str.lstrip restricted to the separator set used on line 124. -/
def lstripSeps (s : String) : String := String.mk (s.data.dropWhile isLeadingSep)

/-- Python "...".split on a single slash, on character lists. -/
def splitSlash : List Char → List (List Char)
  | [] => [[]]
  | c :: cs =>
    match splitSlash cs with
    | [] => [[c]]
    | h :: t => if c = '/' then [] :: h :: t else (c :: h) :: t

/-- The component pass of posixpath.normpath: skip empty and "."
components, append ordinary components, and let ".." pop the last
component unless there is nothing left to pop (at an absolute root a
leading ".." disappears; in a relative path it is kept). -/
def normComps (initialSlashes : Nat) (comps : List String) : List String :=
  comps.foldl
    (fun newComps comp =>
      if comp = "" ∨ comp = "." then newComps
      else if comp ≠ ".." ∨ (initialSlashes = 0 ∧ newComps = []) ∨
          newComps.getLast? = some ".." then
        newComps ++ [comp]
      else newComps.dropLast)
    []

/-- Join components back with slashes. -/
def joinComps : List String → String
  | [] => ""
  | [c] => c
  | c :: cs => c ++ "/" ++ joinComps cs

/-- posixpath.normpath: collapse "." and empty components and resolve ".."
segments lexically, preserving one or two leading slashes, with "." for an
empty result. -/
def normpath (path : String) : String :=
  if path = "" then "." else
  let cs := path.data
  let initialSlashes : Nat :=
    if List.isPrefixOf ['/'] cs then
      if List.isPrefixOf ['/', '/'] cs ∧ ¬ List.isPrefixOf ['/', '/', '/'] cs then 2 else 1
    else 0
  let comps := (splitSlash cs).map (fun l => String.mk l)
  let body := joinComps (normComps initialSlashes comps)
  let out := String.mk (List.replicate initialSlashes '/') ++ body
  if out = "" then "." else out

/-- posixpath.join for the two-argument call on line 127 of the source. -/
def joinPath (a b : String) : String :=
  if List.isPrefixOf ['/'] b.data then b
  else if a = "" ∨ a.data.getLast? = some '/' then a ++ b
  else a ++ "/" ++ b

/-- os.path.abspath, modelled for arguments that are already absolute: the
only use in safe_join_and_check joins onto the absolute BASE_DIR, so the
working directory never enters and abspath reduces to normpath. -/
def abspath (p : String) : String := normpath p

/-- Longest common leading character run of two character lists. -/
def lcpChars : List Char → List Char → List Char
  | a :: as, b :: bs => if a = b then a :: lcpChars as bs else []
  | _, _ => []

/-- os.path.commonprefix on the two-element list of line 130: for two
strings it is their longest common string (character-wise) leading run. -/
def commonPre (a b : String) : String := String.mk (lcpChars a.data b.data)

/-- Lines 124-127 of the source: the candidate absolute path the resolver
computes for an input, before the containment check. -/
def resolvedCandidate (baseDir relativePathStr : String) : String :=
  abspath (joinPath baseDir (normpath (lstripSeps relativePathStr)))

/-- The message of the ValueError raised on line 131. -/
def traversalMsg (baseDir : String) : String :=
  "Path traversal attempt or path outside allowed sandbox '" ++ baseDir ++ "'."

/-- Lines 121-132, safe_join_and_check: strip leading separators,
lexically normalize, join onto the sandbox root and normalize again, then
reject unless os.path.commonprefix of candidate and root equals the root
(the raised ValueError is the error branch). -/
def safe_join_and_check (baseDir relativePathStr : String) : Except String String :=
  let fullPath := resolvedCandidate baseDir relativePathStr
  if commonPre fullPath baseDir ≠ baseDir then
    Except.error (traversalMsg baseDir)
  else
    Except.ok fullPath

/-- posixpath.dirname: the text before the final slash, with trailing
slashes stripped unless that text is all slashes. -/
def dirname (p : String) : String :=
  let headChars := (p.data.reverse.dropWhile (fun c => c != '/')).reverse
  if headChars ≠ [] ∧ ¬ headChars.all (fun c => c == '/') then
    String.mk ((headChars.reverse.dropWhile (fun c => c == '/')).reverse)
  else String.mk headChars

/-- posixpath.basename: the text after the final slash. -/
def basename (p : String) : String :=
  String.mk ((p.data.reverse.takeWhile (fun c => c != '/')).reverse)

/-- A pure model of the slice of the filesystem the tools touch: regular
files (absolute path to text content) and directories (absolute paths). -/
structure FS where
  files : List (String × String)
  dirs : List String
deriving DecidableEq, Repr

/-- os.path.isfile in the model. -/
def FS.isfile (fs : FS) (p : String) : Bool := (fs.files.lookup p).isSome

/-- os.path.isdir in the model. -/
def FS.isdir (fs : FS) (p : String) : Bool := fs.dirs.contains p

/-- os.path.exists in the model. -/
def FS.pexists (fs : FS) (p : String) : Bool := fs.isfile p || fs.isdir p

/-- Reading an existing file's text. -/
def FS.readFile (fs : FS) (p : String) : Option String := fs.files.lookup p

/-- Creating a file or truncate-replacing its text. -/
def FS.setFile (fs : FS) (p c : String) : FS :=
  { fs with files := (p, c) :: fs.files.filter (fun kv => kv.fst != p) }

/-- The chain of dirname-iterates of a path, outermost first, with fuel
for termination (dirname never lengthens a path). -/
def ancChain : Nat → String → List String
  | 0, _ => []
  | fuel + 1, p =>
    let d := dirname p
    if d = p ∨ d = "" then [p] else ancChain fuel d ++ [p]

/-- Every directory os.makedirs touches for a path: the path and its
ancestors, outermost first. -/
def ancestors (p : String) : List String := ancChain (p.length + 1) p

/-- os.makedirs in the model: fails when a link in the chain already
exists as a regular file, otherwise records every missing directory of
the chain. -/
def FS.makedirs (fs : FS) (p : String) : Except String FS :=
  if (ancestors p).any (fun a => fs.isfile a) then
    Except.error ("Not a directory: " ++ p)
  else
    Except.ok { fs with dirs := ((ancestors p).filter (fun a => !(fs.isdir a))) ++ fs.dirs }

/-- Opening a path with mode w and writing text: fails when the target is
a directory or its parent directory is missing, else creates or
truncates. -/
def FS.writeTextFile (fs : FS) (p c : String) : Except String FS :=
  if fs.isdir p then Except.error ("Is a directory: " ++ p)
  else if !(fs.isdir (dirname p)) then Except.error ("Not a directory: " ++ dirname p)
  else Except.ok (fs.setFile p c)

/-- os.listdir in the model: the immediate child entry names. -/
def FS.listdir (fs : FS) (p : String) : List String :=
  ((fs.files.map Prod.fst) ++ fs.dirs).filterMap
    (fun q => if dirname q = p then some (basename q) else none)

/-- The parameter mapping a tool call receives: each key present or
absent. -/
structure Params where
  path : Option String
  content : Option String
  overwrite : Option Bool
deriving DecidableEq, Repr

/-- The structured result dictionaries the tools return: a content
dictionary, an items dictionary, a success-true write outcome, a
success-false write outcome, or a plain error dictionary. -/
inductive ToolResult where
  | content (text : String)
  | items (names : List String)
  | writeOk (message : String)
  | writeErr (error : String)
  | error (error : String)
deriving DecidableEq, Repr

/-- Lines 135-147, tool_read_file.  A missing path key raises KeyError
inside the try block and the generic handler renders it as shown; a
ValueError from the resolver is returned as the error; the isfile gate
and the read are fused through the model's file map (isfile holds exactly
when the map has the path). -/
def tool_read_file (baseDir : String) (fs : FS) (params : Params) : ToolResult :=
  match params.path with
  | none => ToolResult.error "Error reading file: 'path'"
  | some p =>
    match safe_join_and_check baseDir p with
    | Except.error ve => ToolResult.error ve
    | Except.ok targetPath =>
      if fs.isfile targetPath then
        ToolResult.content ((fs.readFile targetPath).getD "")
      else
        ToolResult.error ("Not a file or not found: " ++ p)

/-- Lines 149-160, tool_list_directory: the path key defaults to ".". -/
def tool_list_directory (baseDir : String) (fs : FS) (params : Params) : ToolResult :=
  let p := params.path.getD "."
  match safe_join_and_check baseDir p with
  | Except.error ve => ToolResult.error ve
  | Except.ok targetPath =>
    if fs.isdir targetPath then ToolResult.items (fs.listdir targetPath)
    else ToolResult.error ("Not a directory or not found: " ++ p)

/-- Lines 162-237, tool_write_file, with the filesystem threaded
explicitly: the returned pair is the filesystem after the call and the
result dictionary.  Python's falsiness test on the path makes an absent
key and the empty string fail alike; the exists gate runs before the
directory gate, exactly as in the source. -/
def tool_write_file (baseDir : String) (fs : FS) (params : Params) : FS × ToolResult :=
  let relativePath := params.path.getD ""
  let overwrite := params.overwrite.getD false
  if relativePath = "" ∨ params.content = none then
    (fs, ToolResult.writeErr "Missing 'path' or 'content' parameter.")
  else
    let c := params.content.getD ""
    match safe_join_and_check baseDir relativePath with
    | Except.error ve => (fs, ToolResult.writeErr ve)
    | Except.ok targetPath =>
      if fs.pexists targetPath && ! overwrite then
        (fs, ToolResult.writeErr
          ("File '" ++ relativePath ++ "' already exists. Set 'overwrite: true' to replace."))
      else if fs.isdir targetPath then
        (fs, ToolResult.writeErr
          ("Path '" ++ relativePath ++ "' is a directory, cannot write file."))
      else
        let parentDir := dirname targetPath
        let step : Except String FS :=
          if ! fs.pexists parentDir then
            match fs.makedirs parentDir with
            | Except.error e =>
              Except.error ("Could not create parent directory for '" ++ relativePath ++ "': " ++ e)
            | Except.ok fs2 => Except.ok fs2
          else Except.ok fs
        match step with
        | Except.error e => (fs, ToolResult.writeErr e)
        | Except.ok fs2 =>
          match fs2.writeTextFile targetPath c with
          | Except.error e => (fs2, ToolResult.writeErr ("Error writing file: " ++ e))
          | Except.ok fs3 =>
            (fs3, ToolResult.writeOk ("File '" ++ relativePath ++ "' written successfully."))

instance {ε α : Type} [DecidableEq ε] [DecidableEq α] : DecidableEq (Except ε α)
  | Except.error e, Except.error f => decidable_of_iff (e = f) (by simp)
  | Except.ok x, Except.ok y => decidable_of_iff (x = y) (by simp)
  | Except.error _, Except.ok _ => Decidable.isFalse (by simp)
  | Except.ok _, Except.error _ => Decidable.isFalse (by simp)

/-- Containment in the directory-component sense: a path is inside a root
exactly when it equals the root or lies below it with a separator after
the root's final component. -/
def isDescendantOrSelf (root p : String) : Bool :=
  p == root || List.isPrefixOf (root ++ "/").data p.data

/-- The structured shape of every read_file result: a content dictionary
or an error dictionary. -/
def readShaped (r : ToolResult) : Prop :=
  (∃ t, r = ToolResult.content t) ∨ (∃ e, r = ToolResult.error e)

/-- The structured shape of every list_directory result: an items
dictionary or an error dictionary. -/
def listShaped (r : ToolResult) : Prop :=
  (∃ l, r = ToolResult.items l) ∨ (∃ e, r = ToolResult.error e)

/-- The structured shape of every write_file result: a success write
outcome or a failure write outcome carrying an error string. -/
def writeShaped (r : ToolResult) : Prop :=
  (∃ m, r = ToolResult.writeOk m) ∨ (∃ e, r = ToolResult.writeErr e)

theorem lcpChars_eq_right_iff (x y : List Char) :
    lcpChars x y = y ↔ List.isPrefixOf y x = true := by
  induction y generalizing x with
  | nil => cases x <;> simp [lcpChars]
  | cons b bs ih =>
    cases x with
    | nil => simp [lcpChars]
    | cons a as =>
      simp only [lcpChars, List.isPrefixOf]
      by_cases hab : a = b
      · subst hab
        simp [ih]
      · simp [hab, List.isPrefixOf, beq_iff_eq, Ne.symm hab]

theorem commonPre_eq_right_iff (a b : String) :
    commonPre a b = b ↔ List.isPrefixOf b.data a.data = true := by
  rw [← lcpChars_eq_right_iff a.data b.data]
  constructor
  · intro h
    exact congrArg String.data h
  · intro h
    show String.mk (lcpChars a.data b.data) = b
    rw [h]

theorem isPrefixOf_root_of_descendant (root p : String)
    (h : isDescendantOrSelf root p = true) :
    List.isPrefixOf root.data p.data = true := by
  simp only [isDescendantOrSelf, Bool.or_eq_true, beq_iff_eq] at h
  rw [ List.isPrefixOf_iff_prefix]
  rcases h with h | h
  · subst h
    exact List.prefix_refl _
  · rw [ List.isPrefixOf_iff_prefix] at h
    refine List.IsPrefix.trans ?_ h
    rw [String.data_append]
    exact List.prefix_append _ _

/-- A candidate that is the root or a component-wise descendant always
passes the containment check. -/
theorem safe_join_accepts_of_descendant (baseDir s : String)
    (h : isDescendantOrSelf baseDir (resolvedCandidate baseDir s) = true) :
    safe_join_and_check baseDir s = Except.ok (resolvedCandidate baseDir s) := by
  have hcp : commonPre (resolvedCandidate baseDir s) baseDir = baseDir :=
    (commonPre_eq_right_iff _ _).mpr (isPrefixOf_root_of_descendant _ _ h)
  simp [safe_join_and_check, hcp]

/-- A candidate that does not even retain the root as a raw string run is
always rejected. -/
theorem safe_join_rejects_outside (baseDir s : String)
    (h : List.isPrefixOf baseDir.data (resolvedCandidate baseDir s).data = false) :
    safe_join_and_check baseDir s = Except.error (traversalMsg baseDir) := by
  have hcp : commonPre (resolvedCandidate baseDir s) baseDir ≠ baseDir := by
    intro hcp
    rw [commonPre_eq_right_iff] at hcp
    rw [hcp] at h
    exact absurd h (by simp)
  simp [safe_join_and_check, hcp]

/-- C1: the containment check of safe_join_and_check compares raw string
prefixes through os.path.commonprefix, so with sandbox root "/sandbox"
the input "../sandboxevil/secret.txt" is accepted and resolves to
"/sandboxevil/secret.txt" — a sibling of the root, outside it in the
directory-component sense.  The resolver can therefore return a path
outside the root, against the claim and against the source's own comment
that the check ensures the result stays within BASE_DIR. -/
theorem c1_commonprefix_escape :
    safe_join_and_check "/sandbox" "../sandboxevil/secret.txt" =
      Except.ok "/sandboxevil/secret.txt" ∧
    isDescendantOrSelf "/sandbox" "/sandboxevil/secret.txt" = false := by decide

/-- C2 is false as stated: "/abs/outside", which the claim says the
resolver must reject, is accepted (line 124 strips leading separators,
so it resolves inside the sandbox to "/sandbox/abs/outside"); and
"../sandboxZ", whose normalized form climbs above the root "/sandbox",
is accepted too, because the escaped path retains the root's characters
as a raw string prefix. -/
theorem c2_counterexample :
    safe_join_and_check "/sandbox" "/abs/outside" = Except.ok "/sandbox/abs/outside" ∧
    safe_join_and_check "/sandbox" "../sandboxZ" = Except.ok "/sandboxZ" := by decide

/-- C2 amended: with sandbox root "/sandbox" the resolver rejects
"../secret" and "a/../../b"; it accepts "." and the empty string, both
resolving to the root, and accepts "/abs/outside", resolving it inside
the sandbox after stripping the leading separator; every input whose
resolved candidate is the root or a component-wise descendant of it is
accepted with that candidate; and an input is rejected whenever its
resolved candidate does not retain the root as a leading character run
(the containment check is exactly this raw string-prefix comparison, so
inputs that climb to a sibling whose name extends the root's, as in C1,
are the one family the claim's reject clause loses). -/
theorem c2_resolver_cases (s : String) :
    safe_join_and_check "/sandbox" "../secret" = Except.error (traversalMsg "/sandbox") ∧
    safe_join_and_check "/sandbox" "a/../../b" = Except.error (traversalMsg "/sandbox") ∧
    safe_join_and_check "/sandbox" "." = Except.ok "/sandbox" ∧
    safe_join_and_check "/sandbox" "" = Except.ok "/sandbox" ∧
    safe_join_and_check "/sandbox" "/abs/outside" = Except.ok "/sandbox/abs/outside" ∧
    (isDescendantOrSelf "/sandbox" (resolvedCandidate "/sandbox" s) = true →
      safe_join_and_check "/sandbox" s = Except.ok (resolvedCandidate "/sandbox" s)) ∧
    (List.isPrefixOf "/sandbox".data (resolvedCandidate "/sandbox" s).data = false →
      safe_join_and_check "/sandbox" s = Except.error (traversalMsg "/sandbox")) :=
  ⟨by decide, by decide, by decide, by decide, by decide,
    safe_join_accepts_of_descendant "/sandbox" s,
    safe_join_rejects_outside "/sandbox" s⟩

/-- C2 witness: the amended theorem applied at the concrete input
"docs/a.txt", whose candidate "/sandbox/docs/a.txt" is a descendant of
the root, so the resolver accepts it. -/
theorem c2_resolver_cases_witness :
    safe_join_and_check "/sandbox" "docs/a.txt" =
      Except.ok (resolvedCandidate "/sandbox" "docs/a.txt") :=
  (c2_resolver_cases "docs/a.txt").2.2.2.2.2.1 (by decide)

theorem FS.isfile_setFile_self (fs : FS) (p c : String) :
    (fs.setFile p c).isfile p = true := by
  simp [FS.isfile, FS.setFile, List.lookup]

theorem FS.readFile_setFile_self (fs : FS) (p c : String) :
    (fs.setFile p c).readFile p = some c := by
  simp [FS.readFile, FS.setFile, List.lookup]

theorem dirname_length_le (p : String) : (dirname p).length ≤ p.length := by
  have h1 : ((p.data.reverse.dropWhile (fun c => c != '/')).reverse).length ≤ p.data.length := by
    rw [List.length_reverse]
    exact le_trans (List.dropWhile_sublist _).length_le (le_of_eq (List.length_reverse _))
  simp only [dirname]
  split
  · show (String.mk _).length ≤ _
    simp only [String.length]
    calc ((((p.data.reverse.dropWhile (fun c => c != '/')).reverse).reverse.dropWhile
            (fun c => c == '/')).reverse).length
        ≤ (((p.data.reverse.dropWhile (fun c => c != '/')).reverse).reverse).length := by
          rw [List.length_reverse]
          exact (List.dropWhile_sublist _).length_le
      _ ≤ p.data.length := by
          rw [List.length_reverse]
          exact h1
  · show (String.mk _).length ≤ _
    simp only [String.length]
    exact h1

theorem ancChain_length_le (fuel : Nat) (q a : String) (ha : a ∈ ancChain fuel q) :
    a.length ≤ q.length := by
  induction fuel generalizing q with
  | zero => simp [ancChain] at ha
  | succ n ih =>
    simp only [ancChain] at ha
    split at ha
    · rw [List.mem_singleton] at ha
      subst ha
      exact le_refl _
    · rcases List.mem_append.mp ha with h | h
      · exact le_trans (ih _ h) (dirname_length_le q)
      · rw [List.mem_singleton] at h
        subst h
        exact le_refl _

theorem ancestors_length_le (q a : String) (ha : a ∈ ancestors q) : a.length ≤ q.length :=
  ancChain_length_le _ q a ha

theorem self_mem_ancestors (q : String) : q ∈ ancestors q := by
  simp only [ancestors, ancChain]
  split
  · exact List.mem_singleton.mpr rfl
  · exact List.mem_append.mpr (Or.inr (List.mem_singleton.mpr rfl))

theorem FS.makedirs_files (fs fs2 : FS) (q : String) (h : fs.makedirs q = Except.ok fs2) :
    fs2.files = fs.files := by
  simp only [FS.makedirs] at h
  split at h
  · cases h
  · cases h
    rfl

theorem contains_iff_mem (l : List String) (a : String) : l.contains a = true ↔ a ∈ l := by
  simp [List.contains]

theorem FS.makedirs_isdir (fs fs2 : FS) (q : String) (h : fs.makedirs q = Except.ok fs2) :
    ∀ a ∈ ancestors q, fs2.isdir a = true := by
  intro a ha
  simp only [FS.makedirs] at h
  split at h
  · cases h
  · cases h
    rw [FS.isdir, contains_iff_mem, List.mem_append]
    by_cases hd : fs.isdir a = true
    · right
      exact (contains_iff_mem _ _).mp hd
    · left
      rw [List.mem_filter]
      refine ⟨ha, ?_⟩
      simp only [Bool.not_eq_true']
      exact Bool.eq_false_iff.mpr hd

theorem FS.makedirs_isdir_src (fs fs2 : FS) (q a : String)
    (h : fs.makedirs q = Except.ok fs2) (ha : fs2.isdir a = true) :
    fs.isdir a = true ∨ a ∈ ancestors q := by
  simp only [FS.makedirs] at h
  split at h
  · cases h
  · cases h
    rw [FS.isdir, contains_iff_mem, List.mem_append] at ha
    rcases ha with ha | ha
    · exact Or.inr (List.mem_filter.mp ha).1
    · left
      rw [FS.isdir, contains_iff_mem]
      exact ha

theorem FS.writeTextFile_ok (fs fs2 : FS) (p c : String)
    (h : fs.writeTextFile p c = Except.ok fs2) : fs2 = fs.setFile p c := by
  simp only [FS.writeTextFile] at h
  split at h
  · cases h
  · split at h
    · cases h
    · cases h
      rfl

/-- C3: for every path and every content string (the empty string and
path-like text included), a write_file call with overwrite=true that
reports success, followed by read_file of the same path against the
filesystem the write produced, returns exactly the written content. -/
theorem c3_write_then_read (baseDir : String) (fs fs2 : FS) (p c : String) (r : ToolResult)
    (hw : tool_write_file baseDir fs
      { path := some p, content := some c, overwrite := some true } = (fs2, r))
    (hok : ∃ m, r = ToolResult.writeOk m) :
    tool_read_file baseDir fs2 { path := some p, content := none, overwrite := none } =
      ToolResult.content c := by
  obtain ⟨m, hm⟩ := hok
  subst hm
  by_cases hp : p = ""
  · simp [tool_write_file, hp] at hw
  · rcases hres : safe_join_and_check baseDir p with ve | targetPath
    · simp [tool_write_file, hp, hres] at hw
    · simp only [tool_write_file, Option.getD_some, hres] at hw
      rw [if_neg (by simp [hp])] at hw
      rw [if_neg (by simp)] at hw
      split at hw
      · simp at hw
      · split at hw
        · simp at hw
        · rename_i fsMid hstep
          split at hw
          · simp at hw
          · rename_i fs3 hwt
            injection hw with h1 h2
            subst h1
            have h3 := FS.writeTextFile_ok fsMid _ targetPath c hwt
            subst h3
            simp [tool_read_file, hres, FS.isfile_setFile_self, FS.readFile_setFile_self]

/-- C3 witness: on an empty sandbox, writing "hello" to "notes.txt" with
overwrite=true succeeds and reading "notes.txt" afterwards returns
"hello". -/
theorem c3_write_then_read_witness :
    tool_read_file "/sandbox" (FS.mk [("/sandbox/notes.txt", "hello")] ["/sandbox"])
      { path := some "notes.txt", content := none, overwrite := none } =
      ToolResult.content "hello" :=
  c3_write_then_read "/sandbox" (FS.mk [] ["/sandbox"])
    (FS.mk [("/sandbox/notes.txt", "hello")] ["/sandbox"]) "notes.txt" "hello"
    (ToolResult.writeOk "File 'notes.txt' written successfully.")
    (by decide) ⟨"File 'notes.txt' written successfully.", rfl⟩

/-- C4: when the path resolves to an existing regular file and overwrite
is omitted or false, write_file fails with the already-exists error and
the filesystem — in particular the file's content — is unchanged. -/
theorem c4_overwrite_gate (baseDir : String) (fs : FS) (p c targetPath : String) (ow : Option Bool)
    (hp : p ≠ "")
    (hres : safe_join_and_check baseDir p = Except.ok targetPath)
    (hfile : fs.isfile targetPath = true)
    (how : ow = none ∨ ow = some false) :
    tool_write_file baseDir fs { path := some p, content := some c, overwrite := ow } =
      (fs, ToolResult.writeErr
        ("File '" ++ p ++ "' already exists. Set 'overwrite: true' to replace.")) := by
  have how2 : ow.getD false = false := by rcases how with h | h <;> simp [h]
  have hex : fs.pexists targetPath = true := by simp [FS.pexists, hfile]
  simp only [tool_write_file, Option.getD_some, how2, hres]
  rw [if_neg (by simp [hp]), if_pos (by simp [hex])]

/-- C4 witness: writing to the existing file "f.txt" with overwrite
omitted fails with the already-exists error and leaves the filesystem as
it was. -/
theorem c4_overwrite_gate_witness :
    tool_write_file "/sandbox" (FS.mk [("/sandbox/f.txt", "old")] ["/sandbox"])
      { path := some "f.txt", content := some "new", overwrite := none } =
      (FS.mk [("/sandbox/f.txt", "old")] ["/sandbox"],
        ToolResult.writeErr
          ("File '" ++ "f.txt" ++ "' already exists. Set 'overwrite: true' to replace.")) :=
  c4_overwrite_gate "/sandbox" (FS.mk [("/sandbox/f.txt", "old")] ["/sandbox"])
    "f.txt" "new" "/sandbox/f.txt" none (by decide) (by decide) (by decide) (Or.inl rfl)

/-- C5 is false as stated: on a path that resolves to the existing
directory "/sandbox/d", write_file with overwrite=false returns the
already-exists error, not the directory-specific error the claim
requires for every overwrite value, because the source checks existence
and the overwrite flag before checking for a directory. -/
theorem c5_counterexample :
    tool_write_file "/sandbox" (FS.mk [] ["/sandbox", "/sandbox/d"])
      { path := some "d", content := some "x", overwrite := some false } =
      (FS.mk [] ["/sandbox", "/sandbox/d"],
        ToolResult.writeErr "File 'd' already exists. Set 'overwrite: true' to replace.") ∧
    (tool_write_file "/sandbox" (FS.mk [] ["/sandbox", "/sandbox/d"])
      { path := some "d", content := some "x", overwrite := some false }).2 ≠
      ToolResult.writeErr "Path 'd' is a directory, cannot write file." := by decide

/-- C5 amended: on a path that resolves to an existing directory,
write_file never succeeds and never changes the filesystem; it returns
success=false with the directory-specific error when overwrite is true
(the case in which the directory gate is reached), and with the
already-exists error when overwrite is omitted or false (the source's
exists/overwrite gate runs first). -/
theorem c5_directory_write_fs (baseDir : String) (fs : FS) (p c targetPath : String) (ow : Option Bool)
    (hp : p ≠ "")
    (hres : safe_join_and_check baseDir p = Except.ok targetPath)
    (hdir : fs.isdir targetPath = true) :
    (tool_write_file baseDir fs { path := some p, content := some c, overwrite := ow }).1 = fs ∧
    (ow = none ∨ ow = some false →
      (tool_write_file baseDir fs { path := some p, content := some c, overwrite := ow }).2 =
        ToolResult.writeErr ("File '" ++ p ++ "' already exists. Set 'overwrite: true' to replace.")) ∧
    (ow = some true →
      (tool_write_file baseDir fs { path := some p, content := some c, overwrite := ow }).2 =
        ToolResult.writeErr ("Path '" ++ p ++ "' is a directory, cannot write file.")) ∧
    ((tool_write_file baseDir fs { path := some p, content := some c, overwrite := ow }).2 =
        ToolResult.writeErr ("File '" ++ p ++ "' already exists. Set 'overwrite: true' to replace.") ∨
      (tool_write_file baseDir fs { path := some p, content := some c, overwrite := ow }).2 =
        ToolResult.writeErr ("Path '" ++ p ++ "' is a directory, cannot write file.")) := by
  have hex : fs.pexists targetPath = true := by simp [FS.pexists, hdir]
  by_cases hov : ow.getD false = true
  · have hw : tool_write_file baseDir fs { path := some p, content := some c, overwrite := ow } =
        (fs, ToolResult.writeErr ("Path '" ++ p ++ "' is a directory, cannot write file.")) := by
      simp only [tool_write_file, Option.getD_some, hov, hres]
      rw [if_neg (by simp [hp]), if_neg (by simp), if_pos hdir]
    rw [hw]
    refine ⟨rfl, fun h => ?_, fun _ => rfl, Or.inr rfl⟩
    rcases h with h | h <;> rw [h] at hov <;> simp at hov
  · have hov2 : ow.getD false = false := by revert hov; cases ow.getD false <;> simp
    have hw : tool_write_file baseDir fs { path := some p, content := some c, overwrite := ow } =
        (fs, ToolResult.writeErr
          ("File '" ++ p ++ "' already exists. Set 'overwrite: true' to replace.")) := by
      simp only [tool_write_file, Option.getD_some, hov2, hres]
      rw [if_neg (by simp [hp]), if_pos (by simp [hex])]
    rw [hw]
    refine ⟨rfl, fun _ => rfl, fun hot => ?_, Or.inl rfl⟩
    rw [hot] at hov2
    simp at hov2

/-- C5 witness: writing to the existing directory "d" with overwrite
omitted fails with the already-exists error (and an unchanged
filesystem), the overwrite-omitted case of the amended claim at a
concrete input. -/
theorem c5_directory_write_fs_witness :
    (tool_write_file "/sandbox" (FS.mk [] ["/sandbox", "/sandbox/d"])
      { path := some "d", content := some "x", overwrite := none }).2 =
      ToolResult.writeErr
        ("File '" ++ "d" ++ "' already exists. Set 'overwrite: true' to replace.") :=
  (c5_directory_write_fs "/sandbox" (FS.mk [] ["/sandbox", "/sandbox/d"]) "d" "x" "/sandbox/d"
    none (by decide) (by decide) (by decide)).2.1 (Or.inl rfl)

/-- C6: write_file requires both the path and the content key — with
either absent it returns the missing-parameter write failure and leaves
the filesystem untouched — while the empty string is valid content: on a
fresh path whose parent directory exists, writing "" succeeds and
creates an empty file. -/
theorem c6_required_params (baseDir : String) (fs : FS) (p c targetPath : String) (ow : Option Bool)
    (hp : p ≠ "")
    (hres : safe_join_and_check baseDir p = Except.ok targetPath)
    (hfresh : fs.pexists targetPath = false)
    (hparent : fs.isdir (dirname targetPath) = true) :
    tool_write_file baseDir fs { path := none, content := some c, overwrite := ow } =
      (fs, ToolResult.writeErr "Missing 'path' or 'content' parameter.") ∧
    tool_write_file baseDir fs { path := some p, content := none, overwrite := ow } =
      (fs, ToolResult.writeErr "Missing 'path' or 'content' parameter.") ∧
    tool_write_file baseDir fs { path := some p, content := some "", overwrite := ow } =
      (fs.setFile targetPath "",
        ToolResult.writeOk ("File '" ++ p ++ "' written successfully.")) := by
  have hboth := hfresh
  rw [FS.pexists, Bool.or_eq_false_iff] at hboth
  obtain ⟨hfileF, hdirF⟩ := hboth
  have hpexparent : fs.pexists (dirname targetPath) = true := by simp [FS.pexists, hparent]
  refine ⟨by simp [tool_write_file], by simp [tool_write_file, hp], ?_⟩
  simp only [tool_write_file, Option.getD_some, hres]
  rw [if_neg (by simp [hp]), if_neg (by simp [hfresh]), if_neg (by simp [hdirF]),
      if_neg (by simp [hpexparent])]
  simp [FS.writeTextFile, hdirF, hparent]

/-- C6 witness: writing the empty string to the fresh path "e.txt"
succeeds and creates an empty file. -/
theorem c6_required_params_witness :
    tool_write_file "/sandbox" (FS.mk [] ["/sandbox"])
      { path := some "e.txt", content := some "", overwrite := none } =
      ((FS.mk [] ["/sandbox"]).setFile "/sandbox/e.txt" "",
        ToolResult.writeOk ("File '" ++ "e.txt" ++ "' written successfully.")) :=
  (c6_required_params "/sandbox" (FS.mk [] ["/sandbox"]) "e.txt" "x" "/sandbox/e.txt" none
    (by decide) (by decide) (by decide) (by decide)).2.2

/-- C7: when the target's parent directory does not exist, write_file
creates it and every missing ancestor (os.makedirs) and then succeeds,
and if the directory creation fails the call returns success=false with
the descriptive creation error and an unchanged filesystem. -/
theorem c7_parent_creation (baseDir : String) (fs fsMk : FS) (p c targetPath : String)
    (hp : p ≠ "")
    (hres : safe_join_and_check baseDir p = Except.ok targetPath)
    (hfresh : fs.pexists targetPath = false)
    (hparent : fs.pexists (dirname targetPath) = false)
    (hlen : (dirname targetPath).length < targetPath.length) :
    (fs.makedirs (dirname targetPath) = Except.ok fsMk →
      tool_write_file baseDir fs { path := some p, content := some c, overwrite := none } =
        (fsMk.setFile targetPath c,
          ToolResult.writeOk ("File '" ++ p ++ "' written successfully.")) ∧
      ∀ a ∈ ancestors (dirname targetPath), fsMk.isdir a = true) ∧
    (∀ e, fs.makedirs (dirname targetPath) = Except.error e →
      tool_write_file baseDir fs { path := some p, content := some c, overwrite := none } =
        (fs, ToolResult.writeErr
          ("Could not create parent directory for '" ++ p ++ "': " ++ e))) := by
  have hboth := hfresh
  rw [FS.pexists, Bool.or_eq_false_iff] at hboth
  obtain ⟨hfileF, hdirF⟩ := hboth
  constructor
  · intro hmk
    have hdirs := FS.makedirs_isdir fs fsMk (dirname targetPath) hmk
    have htnotin : targetPath ∉ ancestors (dirname targetPath) := by
      intro hmem
      have := ancestors_length_le _ _ hmem
      omega
    have htdirF : fsMk.isdir targetPath = false := by
      cases hMk2 : fsMk.isdir targetPath with
      | false => rfl
      | true =>
        rcases FS.makedirs_isdir_src fs fsMk _ _ hmk hMk2 with h | h
        · simp [hdirF] at h
        · exact absurd h htnotin
    have hparentDir : fsMk.isdir (dirname targetPath) = true :=
      hdirs _ (self_mem_ancestors _)
    refine ⟨?_, hdirs⟩
    simp only [tool_write_file, Option.getD_some, Option.getD_none, hres]
    rw [if_neg (by simp [hp]), if_neg (by simp [hfresh]), if_neg (by simp [hdirF]),
        if_pos (by simp [hparent])]
    rw [hmk]
    simp [FS.writeTextFile, htdirF, hparentDir]
  · intro e hmk
    simp only [tool_write_file, Option.getD_some, Option.getD_none, hres]
    rw [if_neg (by simp [hp]), if_neg (by simp [hfresh]), if_neg (by simp [hdirF]),
        if_pos (by simp [hparent])]
    rw [hmk]

/-- C7 witness: writing to "a/b/c.txt" on a sandbox holding neither "a"
nor "a/b" creates both ancestors and succeeds. -/
theorem c7_parent_creation_witness :
    tool_write_file "/sandbox" (FS.mk [] ["/sandbox"])
      { path := some "a/b/c.txt", content := some "hi", overwrite := none } =
      ((FS.mk [] ["/", "/sandbox/a", "/sandbox/a/b", "/sandbox"]).setFile "/sandbox/a/b/c.txt" "hi",
        ToolResult.writeOk ("File '" ++ "a/b/c.txt" ++ "' written successfully.")) :=
  (((c7_parent_creation "/sandbox" (FS.mk [] ["/sandbox"])
      (FS.mk [] ["/", "/sandbox/a", "/sandbox/a/b", "/sandbox"]) "a/b/c.txt" "hi"
      "/sandbox/a/b/c.txt" (by decide) (by decide) (by decide) (by decide) (by decide)).1)
    (by decide)).1

/-- C8: a list_directory call without a path key behaves identically to
one with path ".", and "." resolves to the sandbox root itself. -/
theorem c8_list_default_path (baseDir : String) (fs : FS) :
    tool_list_directory baseDir fs { path := none, content := none, overwrite := none } =
      tool_list_directory baseDir fs { path := some ".", content := none, overwrite := none } ∧
    safe_join_and_check "/sandbox" "." = Except.ok "/sandbox" :=
  ⟨rfl, by decide⟩

/-- C9: each of the three tools is total over arbitrary parameter
mappings and filesystems, and every result it can produce has the
documented structured shape — content or error for read_file, items or
error for list_directory, success or failure write outcome for
write_file; no branch escapes as an exception (every raise in the source
is caught and shows up here as one of the structured error results). -/
theorem c9_tools_total (baseDir : String) (fs : FS) (ps : Params) :
    readShaped (tool_read_file baseDir fs ps) ∧
    listShaped (tool_list_directory baseDir fs ps) ∧
    writeShaped (tool_write_file baseDir fs ps).2 := by
  obtain ⟨pp, pc, po⟩ := ps
  refine ⟨?_, ?_, ?_⟩
  · simp only [tool_read_file]
    split
    · exact Or.inr ⟨_, rfl⟩
    · split
      · exact Or.inr ⟨_, rfl⟩
      · split
        · exact Or.inl ⟨_, rfl⟩
        · exact Or.inr ⟨_, rfl⟩
  · simp only [tool_list_directory]
    split
    · exact Or.inr ⟨_, rfl⟩
    · split
      · exact Or.inl ⟨_, rfl⟩
      · exact Or.inr ⟨_, rfl⟩
  · simp only [tool_write_file]
    repeat' split
    all_goals first
      | exact Or.inl ⟨_, rfl⟩
      | exact Or.inr ⟨_, rfl⟩

/-- C10: write_file treats a present-but-empty path string like an
absent one — the call fails with the missing-parameter error and changes
nothing — even though the resolver itself accepts the empty string as
naming the sandbox root. -/
theorem c10_write_empty_path (baseDir : String) (fs : FS) (c : String) (ow : Option Bool) :
    tool_write_file baseDir fs { path := some "", content := some c, overwrite := ow } =
      (fs, ToolResult.writeErr "Missing 'path' or 'content' parameter.") ∧
    safe_join_and_check "/sandbox" "" = Except.ok "/sandbox" :=
  ⟨by simp [tool_write_file], by decide⟩
